import Mathlib

set_option autoImplicit false

/-!
Shallow embedding of `src/main.py`: a line-delimited JSON vehicle-record
validation pipeline.  Each input line is decoded into a record (a Python
dict), then passed through `check_schema`, `null_check` and
`transform_address` in order; the driver `run` tallies accepted and
rejected rows and prints per-row and summary lines.
-/

/-- A JSON scalar value as it appears in a decoded record: the data model of
the pipeline (text, number, boolean or null). -/
inductive JVal where
  | null
  | str (s : String)
  | num (n : Int)
  | bool (b : Bool)
deriving DecidableEq, Repr

/-- A decoded record: a Python dict from field name to value, modelled as an
association list with the dict's key-lookup semantics (keys of an actual dict
are unique; the operations below generalize accordingly). -/
abbrev Record := List (String × JVal)

/-- Dict lookup `row[k]`: the first entry with key `k`. -/
def findKey : Record → String → Option JVal
  | [], _ => none
  | (k2, v) :: r, k => if k2 == k then some v else findKey r k

/-- Dict membership `k in row`: key existence, regardless of the value. -/
def containsKey (r : Record) (k : String) : Bool := (findKey r k).isSome

/-- Dict assignment `row[k] = v`: replaces the value if the key exists,
otherwise appends the new entry at the end (insertion order, as in Python). -/
def setKey : Record → String → JVal → Record
  | [], k, v => [(k, v)]
  | (k2, v2) :: r, k, v => if k2 == k then (k2, v) :: r else (k2, v2) :: setKey r k v

/-- Dict deletion `del row[k]`: removes the entry with key `k` (a dict holds
at most one entry per key). -/
def eraseKey : Record → String → Record
  | [], _ => []
  | (k2, v2) :: r, k => if k2 == k then eraseKey r k else (k2, v2) :: eraseKey r k

/-- Python exceptions raised by the pipeline, by kind, carrying the
exception's message argument. -/
inductive PyError where
  | keyError (msg : String)
  | valueError (msg : String)
  | typeError (msg : String)
  | decodeError (msg : String)
  | osError (msg : String)
  | unboundLocalError (msg : String)
deriving DecidableEq, Repr

/-! ## The address regular expression

`main.py` line 20 compiles
`(?P<street_address>[a-zA-Z0-9 .]+)\n(?P<city>[a-zA-Z0-9 ]+), (?P<state>[A-Z]{2}) (?P<zip>[0-9]{5})`
and applies it with `pattern.match`, i.e. anchored at the start of the string
and free to leave a suffix unconsumed.  The matcher below is that pattern
translated token by token; greedy `+` groups are matched longest-first with
single-character backtracking, exactly as the backtracking regex engine
treats a greedy repetition. -/

/-- Characters matched by the street-address class `[a-zA-Z0-9 .]`. -/
def streetChar (c : Char) : Bool := c.isAlpha || c.isDigit || c == ' ' || c == '.'

/-- Characters matched by the city class `[a-zA-Z0-9 ]`. -/
def cityChar (c : Char) : Bool := c.isAlpha || c.isDigit || c == ' '

/-- Exactly `n` consecutive characters of class `p` (a regex class with a
fixed repetition count), returned with the rest of the input. -/
def takeExact (p : Char → Bool) : Nat → List Char → Option (List Char × List Char)
  | 0, cs => some ([], cs)
  | _ + 1, [] => none
  | n + 1, c :: cs =>
      if p c then
        match takeExact p n cs with
        | some (g, r) => some (c :: g, r)
        | none => none
      else none

/-- Named capture groups of a match, in group order. -/
abbrev Caps := List (String × String)

/-- Greedy matching of a named one-or-more group followed by the continuation
`k` of the pattern: the longest candidate run is tried first and is given back
one character at a time while `k` keeps failing, as a backtracking engine
treats a greedy `+`.  `fuel` is the number of candidate lengths left to try
(the caller passes the full run's length, so every length down to 1 is
tried). -/
def shrinkLoop (name : String) (k : List Char → Option (Caps × List Char)) :
    Nat → List Char → List Char → Option (Caps × List Char)
  | 0, _, _ => none
  | fuel + 1, run, rest =>
      if run.isEmpty then none
      else
        match k rest with
        | some (caps, r) => some ((name, run.asString) :: caps, r)
        | none => shrinkLoop name k fuel run.dropLast (run.getLastD ' ' :: rest)

/-- Trailing zip group of the pattern, `(?P<zip>[0-9]{5})`. -/
def tailZip (cs : List Char) : Option (Caps × List Char) :=
  match takeExact Char.isDigit 5 cs with
  | some (z, r) => some ([("zip", z.asString)], r)
  | none => none

/-- Literal space between the state group and the zip group. -/
def tailSpaceZip (cs : List Char) : Option (Caps × List Char) :=
  match cs with
  | ' ' :: r => tailZip r
  | _ => none

/-- State group `(?P<state>[A-Z]{2})` followed by the rest of the pattern. -/
def tailState (cs : List Char) : Option (Caps × List Char) :=
  match takeExact Char.isUpper 2 cs with
  | some (st, r) =>
      match tailSpaceZip r with
      | some (caps, rem) => some (("state", st.asString) :: caps, rem)
      | none => none
  | none => none

/-- Literal ", " between the city group and the state group. -/
def tailCommaState (cs : List Char) : Option (Caps × List Char) :=
  match cs with
  | ',' :: ' ' :: r => tailState r
  | _ => none

/-- City group `(?P<city>[a-zA-Z0-9 ]+)` (greedy) followed by the rest of the
pattern. -/
def tailCity (cs : List Char) : Option (Caps × List Char) :=
  shrinkLoop "city" tailCommaState (cs.takeWhile cityChar).length
    (cs.takeWhile cityChar) (cs.dropWhile cityChar)

/-- Literal line break between the street group and the city group. -/
def tailNewlineCity (cs : List Char) : Option (Caps × List Char) :=
  match cs with
  | '\n' :: r => tailCity r
  | _ => none

/-- Street group `(?P<street_address>[a-zA-Z0-9 .]+)` (greedy) followed by the
rest of the pattern: the whole address regex, over a character list. -/
def addressMatchL (cs : List Char) : Option (Caps × List Char) :=
  shrinkLoop "street_address" tailNewlineCity (cs.takeWhile streetChar).length
    (cs.takeWhile streetChar) (cs.dropWhile streetChar)

/-- Python `pattern.match(s)` for the compiled address regex: anchored at the
start of `s`, trailing input beyond the match left unconsumed. -/
def addressMatch (s : String) : Option (Caps × List Char) := addressMatchL s.toList

/-- Lookup of a named capture group in a match result, `result.group(name)`. -/
def capGet (caps : Caps) (name : String) : String :=
  match caps.find? (fun c => c.1 == name) with
  | some c => c.2
  | none => ""

/-- Whitespace characters stripped by Python `str.strip()` (ASCII part). -/
def isPySpace (c : Char) : Bool :=
  c == ' ' || c == '\t' || c == '\n' || c == '\r' || c == '\x0b' || c == '\x0c'

/-- Python `s.strip()`: remove leading and trailing whitespace. -/
def pyStrip (s : String) : String :=
  (((s.toList.dropWhile isPySpace).reverse.dropWhile isPySpace).reverse).asString

/-- Character-level worker for Python `s.replace("\n", ", ")`. -/
def replaceNlChars : List Char → List Char
  | [] => []
  | '\n' :: cs => ',' :: ' ' :: replaceNlChars cs
  | c :: cs => c :: replaceNlChars cs

/-- Python `s.replace("\n", ", ")`. -/
def pyReplaceNl (s : String) : String := (replaceNlChars s.toList).asString

/-- Lines 4-35 of `main.py` (`transform_address`): match `registered_address`
against the address regex; on a match set `street_address`, `city`, `state`
and `zip` from the named groups and delete the original address field; on no
match raise `ValueError` with the stripped raw address whose line breaks are
replaced by ", ".  The returned record is the row's state after the call
(the Python function mutates the dict in place) and the `Except` is its
outcome.  A non-string (or `None`) address value makes `pattern.match` raise
`TypeError`; a missing key raises `KeyError`. -/
def transform_address (row : Record) : Record × Except PyError Bool :=
  match findKey row "registered_address" with
  | none => (row, Except.error (PyError.keyError "registered_address"))
  | some (JVal.str s) =>
      match addressMatch s with
      | some (caps, _) =>
          let r1 := setKey row "street_address" (JVal.str (capGet caps "street_address"))
          let r2 := setKey r1 "city" (JVal.str (capGet caps "city"))
          let r3 := setKey r2 "state" (JVal.str (capGet caps "state"))
          let r4 := setKey r3 "zip" (JVal.str (capGet caps "zip"))
          (eraseKey r4 "registered_address", Except.ok true)
      | none =>
          (row, Except.error (PyError.valueError
            ("Unknown address format: " ++ pyReplaceNl (pyStrip s))))
  | some _ => (row, Except.error (PyError.typeError "expected string or bytes-like object"))

/-- Line 38 of `main.py`: the required fields, in declaration order. -/
def VALID_FIELDS : List String :=
  ["license_plate", "make_model", "year", "registered_name", "registered_address",
   "registered_date"]

/-- Lines 40-58 of `main.py` (`check_schema`): iterate the required-field list
in order and raise `KeyError` with message `Missing required field: <field>`
on the first field not present in the row. -/
def check_schema (row : Record) : List String → Except PyError Bool
  | [] => Except.ok true
  | f :: rest =>
      if containsKey row f then check_schema row rest
      else Except.error (PyError.keyError ("Missing required field: " ++ f))

/-- Lines 60-78 of `main.py` (`null_check`): iterate the required-field list
in order and raise `ValueError` with message `<field> cannot be Null.` on the
first field whose value is `None`.  The subscript `row[field]` raises
`KeyError` if the field is absent. -/
def null_check (row : Record) : List String → Except PyError Bool
  | [] => Except.ok true
  | f :: rest =>
      match findKey row f with
      | none => Except.error (PyError.keyError f)
      | some v =>
          if v = JVal.null then Except.error (PyError.valueError (f ++ " cannot be Null."))
          else null_check row rest

/-- Lines 98-100 of `main.py`: the three validation steps applied to one
decoded row, in order, with the first failure short-circuiting the rest (in
Python the first raised exception does).  The returned record is the row's
state when the sequence finishes or raises. -/
def process_row (row : Record) : Record × Except PyError Bool :=
  match check_schema row VALID_FIELDS with
  | Except.error e => (row, Except.error e)
  | Except.ok _ =>
      match null_check row VALID_FIELDS with
      | Except.error e => (row, Except.error e)
      | Except.ok _ => transform_address row

/-! ## The driver loop `run` (lines 80-115 of `main.py`)

`run` opens the file, iterates its lines and, per line, runs
`json.loads` then the three steps inside a `try`.  The `except Exception`
handler prints the line number, `str(err)` and the current value of the local
variable `row`, then increments the rejected count; `finally` increments the
line number.  Crucially, if `json.loads` raises before `row` was ever
assigned (that is, on the first line), the handler's own reference to `row`
raises `UnboundLocalError`, which nothing catches, so the run aborts without
a summary.  On later lines a decode failure prints the previous line's
(stale) row.  The embedding represents each input line by its `json.loads`
outcome and the opened file by an `Except` (an `OSError` at `open` also
propagates uncaught). -/

/-- Python `f"{n:04d}"`: decimal,  zero-padded to at least 4 digits. -/
def pad4 (n : Nat) : String :=
  let s := toString n
  if s.length < 4 then (List.replicate (4 - s.length) '0').asString ++ s else s

/-- The single-quote character, used by Python `repr` of strings. -/
def quoteChar : Char := Char.ofNat 39

/-- Escapes applied by Python `repr` to the characters that occur in this
pipeline's data (backslash, line break, tab, carriage return, quote). -/
def pyReprStrChars : List Char → List Char
  | [] => []
  | c :: cs =>
      if c = '\\' then '\\' :: '\\' :: pyReprStrChars cs
      else if c = '\n' then '\\' :: 'n' :: pyReprStrChars cs
      else if c = '\t' then '\\' :: 't' :: pyReprStrChars cs
      else if c = '\r' then '\\' :: 'r' :: pyReprStrChars cs
      else if c = quoteChar then '\\' :: quoteChar :: pyReprStrChars cs
      else c :: pyReprStrChars cs

/-- Python `repr` of one scalar value, as it appears when a dict is printed. -/
def pyReprVal : JVal → String
  | JVal.null => "None"
  | JVal.str s =>
      quoteChar.toString ++ (pyReprStrChars s.toList).asString ++ quoteChar.toString
  | JVal.num n => toString n
  | JVal.bool b => if b then "True" else "False"

/-- Python `repr` of a dict: `\x7b'k': v, ...\x7d` in insertion order. -/
def pyReprRecord (r : Record) : String :=
  "\x7b" ++
    String.intercalate ", "
      (r.map (fun kv => pyReprVal (JVal.str kv.1) ++ ": " ++ pyReprVal kv.2)) ++
  "\x7d"

/-- Python `str(err)` for each modelled exception.  `str` of a `KeyError`
is the `repr` of its argument, hence the surrounding quotes — a Python
quirk visible in the printed rejection lines. -/
def pyStr : PyError → String
  | PyError.keyError m =>
      quoteChar.toString ++ (pyReprStrChars m.toList).asString ++ quoteChar.toString
  | PyError.valueError m => m
  | PyError.typeError m => m
  | PyError.decodeError m => m
  | PyError.osError m => m
  | PyError.unboundLocalError m => m

/-- Line 108 of `main.py`: the rejection line
`[LLLL][ERROR:] <str(err)>, [DATA]: <repr(row)>`. -/
def errorLine (n : Nat) (e : PyError) (r : Record) : String :=
  "[" ++ pad4 n ++ "][ERROR:] " ++ pyStr e ++ ", [DATA]: " ++ pyReprRecord r

/-- Line 103 of `main.py`: the acceptance line `[LLLL [OK]: <repr(row)>`
(the unbalanced bracket is the source's own format string). -/
def okLine (n : Nat) (r : Record) : String :=
  "[" ++ pad4 n ++ " [OK]: " ++ pyReprRecord r

/-- The loop state of `run`: the three counters, the current value of the
local variable `row` (absent until the first successful `json.loads`), and
the console lines printed so far. -/
structure RunState where
  line_num : Nat
  ok_count : Nat
  reject_count : Nat
  rowVar : Option Record
  output : List String
deriving DecidableEq, Repr

/-- The state of `run` before the loop: counters at `1, 0, 0`, no `row`
assigned, nothing printed. -/
def initState : RunState := ⟨1, 0, 0, none, []⟩

/-- One input line, represented by its `json.loads` outcome: either the
decoded record or the `JSONDecodeError` message. -/
abbrev LineResult := Except String Record

/-- One iteration of the loop in `run` (lines 94-112): decode, the three
steps, the `except` handler and the `finally`.  The error result models an
exception escaping the iteration (the handler's `UnboundLocalError` when it
prints a never-assigned `row`), carrying the loop state as the run aborts. -/
def runLine (print_lines : Bool) (st : RunState) (d : LineResult) :
    Except (PyError × RunState) RunState :=
  match d with
  | Except.error msg =>
      match st.rowVar with
      | none =>
          Except.error
            (PyError.unboundLocalError "local variable 'row' referenced before assignment",
             { st with line_num := st.line_num + 1 })
      | some r =>
          Except.ok
            { st with
              output := st.output ++ [errorLine st.line_num (PyError.decodeError msg) r],
              reject_count := st.reject_count + 1,
              line_num := st.line_num + 1 }
  | Except.ok row =>
      match process_row row with
      | (row2, Except.ok _) =>
          Except.ok
            { st with
              rowVar := some row2,
              output := st.output ++ (if print_lines then [okLine st.line_num row2] else []),
              ok_count := st.ok_count + 1,
              line_num := st.line_num + 1 }
      | (row2, Except.error e) =>
          Except.ok
            { st with
              rowVar := some row2,
              output := st.output ++ [errorLine st.line_num e row2],
              reject_count := st.reject_count + 1,
              line_num := st.line_num + 1 }

/-- The `for line in json_file` loop of `run`, threading the state through
`runLine` and stopping early if an iteration lets an exception escape. -/
def runLoop (print_lines : Bool) : RunState → List LineResult → Except (PyError × RunState) RunState
  | st, [] => Except.ok st
  | st, d :: ds =>
      match runLine print_lines st d with
      | Except.error e => Except.error e
      | Except.ok st2 => runLoop print_lines st2 ds

/-- Lines 114-115 of `main.py`: the two summary lines. -/
def summaryLines (st : RunState) : List String :=
  ["Read " ++ toString (st.line_num - 1) ++ " rows",
   "OK rows: " ++ pad4 st.ok_count ++ ", Rejected rows: " ++ pad4 st.reject_count]

/-- Lines 80-115 of `main.py` (`run`): open the file (an `OSError` at `open`
propagates with nothing printed), loop over the lines, then print the two
summary lines.  On success the result carries the final state and the full
console output; on an uncaught exception it carries the exception and the
output printed before the abort (no summary). -/
def run (file : Except String (List LineResult)) (print_lines : Bool) :
    Except (PyError × List String) (RunState × List String) :=
  match file with
  | Except.error msg => Except.error (PyError.osError msg, [])
  | Except.ok ds =>
      match runLoop print_lines initState ds with
      | Except.error (e, st) => Except.error (e, st.output)
      | Except.ok st => Except.ok (st, st.output ++ summaryLines st)

/-! ## Lemmas about the record operations -/

theorem findKey_setKey_self (r : Record) (k : String) (v : JVal) :
    findKey (setKey r k v) k = some v := by
  induction r with
  | nil => simp [setKey, findKey]
  | cons kv r ih =>
      obtain ⟨k2, v2⟩ := kv
      by_cases h : k2 = k
      · simp [setKey, findKey, h]
      · simp [setKey, findKey, h, ih]

theorem findKey_setKey_ne (r : Record) {k k2 : String} (v : JVal) (h : k ≠ k2) :
    findKey (setKey r k v) k2 = findKey r k2 := by
  induction r with
  | nil => simp [setKey, findKey, h]
  | cons kv r ih =>
      obtain ⟨a, b⟩ := kv
      by_cases ha : a = k
      · subst ha
        simp [setKey, findKey, h]
      · by_cases ha2 : a = k2
        · subst ha2
          simp [setKey, findKey, ha]
        · simp [setKey, findKey, ha, ha2, ih]

theorem findKey_eraseKey_self (r : Record) (k : String) :
    findKey (eraseKey r k) k = none := by
  induction r with
  | nil => simp [eraseKey, findKey]
  | cons kv r ih =>
      obtain ⟨a, b⟩ := kv
      by_cases ha : a = k <;> simp [eraseKey, findKey, ha, ih]

theorem findKey_eraseKey_ne (r : Record) {k k2 : String} (h : k ≠ k2) :
    findKey (eraseKey r k) k2 = findKey r k2 := by
  induction r with
  | nil => simp [eraseKey, findKey]
  | cons kv r ih =>
      obtain ⟨a, b⟩ := kv
      by_cases ha : a = k
      · subst ha
        have : a ≠ k2 := h
        simp [eraseKey, findKey, this, ih]
      · by_cases ha2 : a = k2
        · subst ha2
          simp [eraseKey, findKey, ha]
        · simp [eraseKey, findKey, ha, ha2, ih]

/-! ## Lemmas about `check_schema` and `null_check` -/

theorem check_schema_of_all {row : Record} {fields : List String}
    (hp : ∀ f ∈ fields, containsKey row f = true) :
    check_schema row fields = Except.ok true := by
  induction fields with
  | nil => rfl
  | cons f rest ih =>
      have hf := hp f (List.mem_cons_self f rest)
      simp only [check_schema, hf, if_true]
      exact ih fun g hg => hp g (List.mem_cons_of_mem f hg)

theorem check_schema_first_missing {row : Record} {fields : List String} {f : String}
    (h : fields.find? (fun g => !(containsKey row g)) = some f) :
    check_schema row fields = Except.error (PyError.keyError ("Missing required field: " ++ f)) := by
  induction fields with
  | nil => simp [List.find?] at h
  | cons g rest ih =>
      by_cases hc : containsKey row g = true
      · rw [List.find?_cons_of_neg] at h
        · simp only [check_schema, hc, if_true]
          exact ih h
        · simp [hc]
      · rw [List.find?_cons_of_pos] at h
        · cases h
          simp only [check_schema, hc, if_false]
          simp at hc
          simp [hc]
        · simp [hc]

theorem null_check_of_all {row : Record} {fields : List String}
    (hp : ∀ f ∈ fields, containsKey row f = true)
    (hn : ∀ f ∈ fields, findKey row f ≠ some JVal.null) :
    null_check row fields = Except.ok true := by
  induction fields with
  | nil => rfl
  | cons f rest ih =>
      have hf := hp f (List.mem_cons_self f rest)
      have hnf := hn f (List.mem_cons_self f rest)
      unfold containsKey at hf
      obtain ⟨v, hv⟩ := Option.isSome_iff_exists.mp hf
      have hvn : v ≠ JVal.null := fun he => hnf (he ▸ hv)
      simp only [null_check, hv, hvn, if_false]
      exact ih (fun g hg => hp g (List.mem_cons_of_mem f hg))
        (fun g hg => hn g (List.mem_cons_of_mem f hg))

theorem null_check_first_null {row : Record} {fields : List String} {f : String}
    (hp : ∀ g ∈ fields, containsKey row g = true)
    (h : fields.find? (fun g => decide (findKey row g = some JVal.null)) = some f) :
    null_check row fields = Except.error (PyError.valueError (f ++ " cannot be Null.")) := by
  induction fields with
  | nil => simp [List.find?] at h
  | cons g rest ih =>
      have hg := hp g (List.mem_cons_self g rest)
      unfold containsKey at hg
      obtain ⟨v, hv⟩ := Option.isSome_iff_exists.mp hg
      by_cases hnull : findKey row g = some JVal.null
      · rw [List.find?_cons_of_pos] at h
        · cases h
          have : v = JVal.null := by rw [hv] at hnull; exact Option.some.inj hnull
          simp [null_check, hv, this]
        · simp [hnull]
      · rw [List.find?_cons_of_neg] at h
        · have hvn : v ≠ JVal.null := fun he => hnull (he ▸ hv)
          simp only [null_check, hv, hvn, if_false]
          exact ih (fun g2 hg2 => hp g2 (List.mem_cons_of_mem g hg2)) h
        · simp [hnull]

theorem null_check_agree {row row2 : Record} {fields : List String}
    (h : ∀ g ∈ fields, findKey row2 g = findKey row g) :
    null_check row2 fields = null_check row fields := by
  induction fields with
  | nil => rfl
  | cons f rest ih =>
      have hf := h f (List.mem_cons_self f rest)
      simp only [null_check, hf]
      cases findKey row f with
      | none => rfl
      | some v =>
          by_cases hv : v = JVal.null <;>
            simp [hv, ih fun g hg => h g (List.mem_cons_of_mem f hg)]

/-! ## Lemmas about the address matcher

The two greedy `+` groups are the only points where the regex engine
backtracks.  Both are followed by a literal (`\n` after the street group,
`,` after the city group) that their own character class excludes, so giving
characters back never helps: whenever the continuation fails after the
longest run, every shorter candidate fails at once.  This yields a
longest-run ("maximal munch") characterization of the whole match. -/

theorem mem_of_mem_dropLast {α : Type} {l : List α} {a : α} (h : a ∈ l.dropLast) : a ∈ l :=
  (List.dropLast_sublist l).subset h

theorem getLastD_cons_mem {α : Type} (a : α) (rs : List α) (d : α) :
    (a :: rs).getLastD d ∈ a :: rs := by
  rw [List.getLastD_cons]
  exact List.getLastD_mem_cons rs a

theorem shrinkLoop_eq_none {name : String} {k : List Char → Option (Caps × List Char)}
    {p : Char → Bool} (Hk : ∀ c cs, p c = true → k (c :: cs) = none) :
    ∀ (fuel : Nat) (run rest : List Char), (∀ c ∈ run, p c = true) → k rest = none →
      shrinkLoop name k fuel run rest = none := by
  intro fuel
  induction fuel with
  | zero => intro run rest _ _; rfl
  | succ fuel ih =>
      intro run rest hall h0
      cases run with
      | nil => rfl
      | cons a rs =>
          simp only [shrinkLoop, List.isEmpty_cons, h0]
          apply ih
          · intro c hc
            exact hall c (mem_of_mem_dropLast hc)
          · apply Hk
            exact hall _ (getLastD_cons_mem a rs ' ')

theorem cityChar_comma : cityChar ',' = false := by decide

theorem streetChar_newline : streetChar '\n' = false := by decide

theorem tailCommaState_city_head (c : Char) (cs : List Char) (h : cityChar c = true) :
    tailCommaState (c :: cs) = none := by
  have hc : c ≠ ',' := by
    intro he
    rw [he] at h
    exact absurd h (by decide)
  unfold tailCommaState
  split
  · next r heq =>
      injection heq with h1 _
      exact absurd h1 hc
  · rfl

theorem tailNewlineCity_street_head (c : Char) (cs : List Char) (h : streetChar c = true) :
    tailNewlineCity (c :: cs) = none := by
  have hc : c ≠ '\n' := by
    intro he
    rw [he] at h
    exact absurd h (by decide)
  unfold tailNewlineCity
  split
  · next r heq =>
      injection heq with h1 _
      exact absurd h1 hc
  · rfl

/-- Longest-run characterization of the city group: the greedy run is the
`takeWhile` of the class, and backtracking below it never succeeds. -/
theorem tailCity_eq (cs : List Char) :
    tailCity cs =
      if (cs.takeWhile cityChar).isEmpty then none
      else
        match tailCommaState (cs.dropWhile cityChar) with
        | some (caps, r) => some (("city", (cs.takeWhile cityChar).asString) :: caps, r)
        | none => none := by
  unfold tailCity
  cases hrun : cs.takeWhile cityChar with
  | nil => rfl
  | cons a rs =>
      simp only [List.isEmpty_cons, List.length_cons, if_neg Bool.false_ne_true]
      cases hk : tailCommaState (cs.dropWhile cityChar) with
      | some capsr =>
          obtain ⟨caps, r⟩ := capsr
          simp [shrinkLoop, hk]
      | none =>
          simp only [shrinkLoop, List.isEmpty_cons, hk]
          apply shrinkLoop_eq_none tailCommaState_city_head
          · intro c hc
            have : c ∈ cs.takeWhile cityChar := by
              rw [hrun]
              exact mem_of_mem_dropLast hc
            exact List.mem_takeWhile_imp this
          · apply tailCommaState_city_head
            have : (a :: rs).getLastD ' ' ∈ cs.takeWhile cityChar := by
              rw [hrun]
              exact getLastD_cons_mem a rs ' '
            exact List.mem_takeWhile_imp this

/-- Longest-run characterization of the street group, that is, of the whole
address match. -/
theorem addressMatchL_eq (cs : List Char) :
    addressMatchL cs =
      if (cs.takeWhile streetChar).isEmpty then none
      else
        match tailNewlineCity (cs.dropWhile streetChar) with
        | some (caps, r) =>
            some (("street_address", (cs.takeWhile streetChar).asString) :: caps, r)
        | none => none := by
  unfold addressMatchL
  cases hrun : cs.takeWhile streetChar with
  | nil => rfl
  | cons a rs =>
      simp only [List.isEmpty_cons, List.length_cons, if_neg Bool.false_ne_true]
      cases hk : tailNewlineCity (cs.dropWhile streetChar) with
      | some capsr =>
          obtain ⟨caps, r⟩ := capsr
          simp [shrinkLoop, hk]
      | none =>
          simp only [shrinkLoop, List.isEmpty_cons, hk]
          apply shrinkLoop_eq_none tailNewlineCity_street_head
          · intro c hc
            have : c ∈ cs.takeWhile streetChar := by
              rw [hrun]
              exact mem_of_mem_dropLast hc
            exact List.mem_takeWhile_imp this
          · apply tailNewlineCity_street_head
            have : (a :: rs).getLastD ' ' ∈ cs.takeWhile streetChar := by
              rw [hrun]
              exact getLastD_cons_mem a rs ' '
            exact List.mem_takeWhile_imp this

/-! ## Inversion and introduction lemmas for the individual pattern pieces -/

theorem tailZip_some {cs : List Char} {caps : Caps} {r : List Char}
    (h : tailZip cs = some (caps, r)) :
    ∃ z, takeExact Char.isDigit 5 cs = some (z, r) ∧ caps = [("zip", z.asString)] := by
  unfold tailZip at h
  split at h
  · next z r2 heq =>
      injection h with h2
      injection h2 with hcaps hr
      exact ⟨z, by rw [heq, hr], hcaps.symm⟩
  · cases h

theorem tailZip_intro {cs : List Char} {z r : List Char}
    (h : takeExact Char.isDigit 5 cs = some (z, r)) :
    tailZip cs = some ([("zip", z.asString)], r) := by
  unfold tailZip
  rw [h]

theorem tailSpaceZip_some {cs : List Char} {caps : Caps} {r : List Char}
    (h : tailSpaceZip cs = some (caps, r)) :
    ∃ cs2, cs = ' ' :: cs2 ∧ tailZip cs2 = some (caps, r) := by
  unfold tailSpaceZip at h
  split at h
  · next cs2 => exact ⟨cs2, rfl, h⟩
  · cases h

theorem tailState_some {cs : List Char} {caps : Caps} {r : List Char}
    (h : tailState cs = some (caps, r)) :
    ∃ st cs2 caps2, takeExact Char.isUpper 2 cs = some (st, cs2) ∧
      tailSpaceZip cs2 = some (caps2, r) ∧ caps = ("state", st.asString) :: caps2 := by
  unfold tailState at h
  split at h
  · next st cs2 heq =>
      split at h
      · next caps2 rem heq2 =>
          injection h with h2
          injection h2 with hcaps hr
          exact ⟨st, cs2, caps2, heq, by rw [heq2, hr], hcaps.symm⟩
      · cases h
  · cases h

theorem tailState_intro {cs : List Char} {st cs2 : List Char} {caps : Caps} {r : List Char}
    (h1 : takeExact Char.isUpper 2 cs = some (st, cs2))
    (h2 : tailSpaceZip cs2 = some (caps, r)) :
    tailState cs = some (("state", st.asString) :: caps, r) := by
  simp only [tailState, h1, h2]

theorem tailCommaState_some {cs : List Char} {caps : Caps} {r : List Char}
    (h : tailCommaState cs = some (caps, r)) :
    ∃ cs2, cs = ',' :: ' ' :: cs2 ∧ tailState cs2 = some (caps, r) := by
  unfold tailCommaState at h
  split at h
  · next cs2 => exact ⟨cs2, rfl, h⟩
  · cases h

theorem tailCity_some {cs : List Char} {caps : Caps} {r : List Char}
    (h : tailCity cs = some (caps, r)) :
    cs.takeWhile cityChar ≠ [] ∧
      ∃ caps2, tailCommaState (cs.dropWhile cityChar) = some (caps2, r) ∧
        caps = ("city", (cs.takeWhile cityChar).asString) :: caps2 := by
  rw [tailCity_eq] at h
  split at h
  · cases h
  · next hne =>
      constructor
      · intro hnil
        rw [hnil] at hne
        exact hne rfl
      · split at h
        · next caps2 r2 heq =>
            injection h with h2
            injection h2 with hcaps hr
            exact ⟨caps2, by rw [heq, hr], hcaps.symm⟩
        · cases h

theorem tailCity_intro {cs : List Char} {caps : Caps} {r : List Char}
    (h1 : cs.takeWhile cityChar ≠ [])
    (h2 : tailCommaState (cs.dropWhile cityChar) = some (caps, r)) :
    tailCity cs = some (("city", (cs.takeWhile cityChar).asString) :: caps, r) := by
  rw [tailCity_eq, h2]
  simp [List.isEmpty_iff, h1]

theorem tailNewlineCity_some {cs : List Char} {caps : Caps} {r : List Char}
    (h : tailNewlineCity cs = some (caps, r)) :
    ∃ cs2, cs = '\n' :: cs2 ∧ tailCity cs2 = some (caps, r) := by
  unfold tailNewlineCity at h
  split at h
  · next cs2 => exact ⟨cs2, rfl, h⟩
  · cases h

theorem addressMatchL_some {cs : List Char} {caps : Caps} {r : List Char}
    (h : addressMatchL cs = some (caps, r)) :
    cs.takeWhile streetChar ≠ [] ∧
      ∃ caps2, tailNewlineCity (cs.dropWhile streetChar) = some (caps2, r) ∧
        caps = ("street_address", (cs.takeWhile streetChar).asString) :: caps2 := by
  rw [addressMatchL_eq] at h
  split at h
  · cases h
  · next hne =>
      constructor
      · intro hnil
        rw [hnil] at hne
        exact hne rfl
      · split at h
        · next caps2 r2 heq =>
            injection h with h2
            injection h2 with hcaps hr
            exact ⟨caps2, by rw [heq, hr], hcaps.symm⟩
        · cases h

theorem addressMatchL_intro {cs : List Char} {caps : Caps} {r : List Char}
    (h1 : cs.takeWhile streetChar ≠ [])
    (h2 : tailNewlineCity (cs.dropWhile streetChar) = some (caps, r)) :
    addressMatchL cs =
      some (("street_address", (cs.takeWhile streetChar).asString) :: caps, r) := by
  rw [addressMatchL_eq, h2]
  simp [List.isEmpty_iff, h1]

/-! ## Append behavior of the pattern pieces -/

theorem takeWhile_append_of_dropWhile_ne {p : Char → Bool} {l1 : List Char}
    (h : l1.dropWhile p ≠ []) (l2 : List Char) :
    (l1 ++ l2).takeWhile p = l1.takeWhile p ∧
      (l1 ++ l2).dropWhile p = l1.dropWhile p ++ l2 := by
  induction l1 with
  | nil => exact absurd rfl h
  | cons c cs ih =>
      by_cases hc : p c = true
      · have h2 : cs.dropWhile p ≠ [] := by
          intro hnil
          apply h
          simp [List.dropWhile_cons, hc, hnil]
        obtain ⟨ht, hd⟩ := ih h2
        constructor
        · simp [List.takeWhile_cons, hc, ht]
        · simp [List.dropWhile_cons, hc, hd]
      · simp at hc
        constructor
        · simp [List.takeWhile_cons, hc]
        · simp [List.dropWhile_cons, hc]

theorem takeExact_append {p : Char → Bool} {n : Nat} {xs g r : List Char}
    (h : takeExact p n xs = some (g, r)) (ys : List Char) :
    takeExact p n (xs ++ ys) = some (g, r ++ ys) := by
  induction n generalizing xs g with
  | zero =>
      unfold takeExact at h ⊢
      injection h with h2
      injection h2 with hg hr
      rw [← hg, ← hr]
  | succ n ih =>
      cases xs with
      | nil => cases h
      | cons c cs =>
          rw [List.cons_append]
          unfold takeExact at h ⊢
          split at h
          · next hpc =>
              rw [if_pos hpc]
              split at h
              · next g2 r2 heq =>
                  injection h with h2
                  injection h2 with hg hr
                  rw [ih (hr ▸ heq)]
                  rw [← hg]
              · cases h
          · cases h

theorem tailSpaceZip_cons (cs : List Char) : tailSpaceZip (' ' :: cs) = tailZip cs := rfl

theorem tailCommaState_cons (cs : List Char) :
    tailCommaState (',' :: ' ' :: cs) = tailState cs := rfl

theorem tailNewlineCity_cons (cs : List Char) :
    tailNewlineCity ('\n' :: cs) = tailCity cs := rfl

/-- A match that consumes its whole input still matches after any suffix is
appended, with the same captures, leaving exactly the suffix unconsumed:
trailing content beyond a full pattern match is ignored. -/
theorem addressMatchL_append_of_full {l1 : List Char} {caps : Caps}
    (h : addressMatchL l1 = some (caps, [])) (l2 : List Char) :
    addressMatchL (l1 ++ l2) = some (caps, l2) := by
  obtain ⟨hne, caps2, hnl, hcaps⟩ := addressMatchL_some h
  obtain ⟨cs2, hrest, hcity⟩ := tailNewlineCity_some hnl
  obtain ⟨hne2, caps3, hcomma, hcaps2⟩ := tailCity_some hcity
  obtain ⟨cs3, hdrop2, hstate⟩ := tailCommaState_some hcomma
  obtain ⟨st, cs4, caps4, hupper, hsp, hcaps3⟩ := tailState_some hstate
  obtain ⟨cs5, hcs4, hzip⟩ := tailSpaceZip_some hsp
  obtain ⟨z, hdigit, hcaps4⟩ := tailZip_some hzip
  subst hcaps hcaps2 hcaps3 hcaps4 hcs4
  have hdw1 : l1.dropWhile streetChar ≠ [] := by
    rw [hrest]; exact List.cons_ne_nil _ _
  obtain ⟨ht1, hd1⟩ := takeWhile_append_of_dropWhile_ne hdw1 l2
  have hdw2 : cs2.dropWhile cityChar ≠ [] := by
    rw [hdrop2]; exact List.cons_ne_nil _ _
  obtain ⟨ht2, hd2⟩ := takeWhile_append_of_dropWhile_ne hdw2 l2
  have hz2 := takeExact_append hdigit l2
  rw [List.nil_append] at hz2
  have htz := tailZip_intro hz2
  have hsu := takeExact_append hupper l2
  rw [List.cons_append] at hsu
  have hsz : tailSpaceZip (' ' :: (cs5 ++ l2)) = some ([("zip", z.asString)], l2) := by
    rw [tailSpaceZip_cons]; exact htz
  have hts := tailState_intro hsu hsz
  have htcs : tailCommaState (cs2.dropWhile cityChar ++ l2) =
      some (("state", st.asString) :: [("zip", z.asString)], l2) := by
    rw [hdrop2, List.cons_append, List.cons_append, tailCommaState_cons]
    exact hts
  have hne2b : (cs2 ++ l2).takeWhile cityChar ≠ [] := by rw [ht2]; exact hne2
  have htc := tailCity_intro hne2b (by rw [hd2]; exact htcs)
  rw [ht2] at htc
  have htnc : tailNewlineCity (l1.dropWhile streetChar ++ l2) =
      some (("city", (cs2.takeWhile cityChar).asString) ::
            ("state", st.asString) :: [("zip", z.asString)], l2) := by
    rw [hrest, List.cons_append, tailNewlineCity_cons]
    exact htc
  have hne1b : (l1 ++ l2).takeWhile streetChar ≠ [] := by rw [ht1]; exact hne
  have hfin := addressMatchL_intro hne1b (by rw [hd1]; exact htnc)
  rw [ht1] at hfin
  exact hfin

/-- Anchoring: the match only ever starts at position 0, so an input whose
first character is outside the street class never matches, no matter what
follows. -/
theorem addressMatchL_head_not_street {c : Char} (cs : List Char)
    (h : streetChar c = false) : addressMatchL (c :: cs) = none := by
  unfold addressMatchL
  simp [List.takeWhile_cons, h, shrinkLoop]

theorem string_toList_append (s t : String) : (s ++ t).toList = s.toList ++ t.toList :=
  String.data_append s t

/-! ## Lemmas about the driver loop -/

theorem runLine_ok_counts {pl : Bool} {st st2 : RunState} {d : LineResult}
    (h : runLine pl st d = Except.ok st2) :
    st2.ok_count + st2.reject_count = st.ok_count + st.reject_count + 1 ∧
      st2.line_num = st.line_num + 1 := by
  cases d with
  | error msg =>
      simp only [runLine] at h
      cases hrv : st.rowVar with
      | none => rw [hrv] at h; cases h
      | some r =>
          rw [hrv] at h
          injection h with h2
          rw [← h2]
          constructor <;> simp <;> omega
  | ok row =>
      simp only [runLine] at h
      rcases hpr : process_row row with ⟨row2, res⟩
      rw [hpr] at h
      cases res with
      | ok b =>
          injection h with h2
          rw [← h2]
          constructor <;> simp <;> omega
      | error e =>
          injection h with h2
          rw [← h2]
          constructor <;> simp <;> omega

theorem runLoop_counts {pl : Bool} :
    ∀ (ds : List LineResult) (st st2 : RunState),
      runLoop pl st ds = Except.ok st2 →
      st2.ok_count + st2.reject_count = st.ok_count + st.reject_count + ds.length ∧
        st2.line_num = st.line_num + ds.length := by
  intro ds
  induction ds with
  | nil =>
      intro st st2 h
      injection h with h2
      rw [← h2]
      simp
  | cons d ds ih =>
      intro st st2 h
      unfold runLoop at h
      cases hl : runLine pl st d with
      | error e => rw [hl] at h; cases h
      | ok st1 =>
          rw [hl] at h
          obtain ⟨hc, hn⟩ := ih st1 st2 h
          obtain ⟨hc1, hn1⟩ := runLine_ok_counts hl
          constructor <;> simp [List.length_cons] <;> omega

/-! ## Concrete records used by the claim witnesses -/

/-- Concrete scenario 1 of the specification: a fully valid record. -/
def recC2 : Record :=
  [("license_plate", JVal.str "ABC123"), ("make_model", JVal.str "Ford Focus"),
   ("year", JVal.num 2020), ("registered_name", JVal.str "Jane Doe"),
   ("registered_address", JVal.str "123 Main St\nSpringfield, IL 62704"),
   ("registered_date", JVal.str "2023-01-01")]

/-- Concrete scenario 3 variant: the `year` key is absent entirely, and a
present field is null (presence is key existence, not non-nullness). -/
def recC3 : Record :=
  [("license_plate", JVal.str "ABC123"), ("make_model", JVal.str "Ford Focus"),
   ("registered_name", JVal.str "Jane Doe"), ("registered_address", JVal.null),
   ("registered_date", JVal.str "2023-01-01")]

/-- Concrete scenario 2: all six fields present, `registered_address` null. -/
def recC4 : Record :=
  [("license_plate", JVal.str "ABC123"), ("make_model", JVal.str "Ford Focus"),
   ("year", JVal.num 2020), ("registered_name", JVal.str "Jane Doe"),
   ("registered_address", JVal.null), ("registered_date", JVal.str "2023-01-01")]

/-- Scenario 2 record extended with a null field outside the required list. -/
def recC4b : Record :=
  [("license_plate", JVal.str "ABC123"), ("make_model", JVal.str "Ford Focus"),
   ("year", JVal.num 2020), ("registered_name", JVal.str "Jane Doe"),
   ("registered_address", JVal.null), ("registered_date", JVal.str "2023-01-01"),
   ("color", JVal.null)]

/-- Concrete scenario 4: a one-line address (no line break). -/
def recC5 : Record :=
  [("license_plate", JVal.str "ABC123"), ("make_model", JVal.str "Ford Focus"),
   ("year", JVal.num 2020), ("registered_name", JVal.str "Jane Doe"),
   ("registered_address", JVal.str "123 Main St, Springfield, IL 62704"),
   ("registered_date", JVal.str "2023-01-01")]

/-- A record whose address has trailing content after a full pattern match. -/
def recC6a : Record :=
  [("registered_address",
    JVal.str ("123 Main St\nSpringfield, IL 62704" ++ " Apt 4\nmore"))]

/-- A record whose address only contains a pattern match after one leading
character outside the street class. -/
def recC6b : Record :=
  [("registered_address",
    JVal.str (String.mk ('#' :: "123 Main St\nSpringfield, IL 62704".toList)))]

/-- A record whose address matches nowhere. -/
def recC7 : Record := [("registered_address", JVal.str "nope!!")]

/-- A valid record except that `registered_address` is a JSON number. -/
def recC10 : Record :=
  [("license_plate", JVal.str "ABC123"), ("make_model", JVal.str "Ford Focus"),
   ("year", JVal.num 2020), ("registered_name", JVal.str "Jane Doe"),
   ("registered_address", JVal.num 12345),
   ("registered_date", JVal.str "2023-01-01")]

/-- A one-line input whose record is missing the `make_model` field. -/
def dsC8 : List LineResult := [Except.ok [("license_plate", JVal.null)]]

/-- The loop state after processing `dsC8`: one rejected row. -/
def stC8 : RunState :=
  ⟨2, 0, 1, some [("license_plate", JVal.null)],
   [errorLine 1 (PyError.keyError "Missing required field: make_model")
     [("license_plate", JVal.null)]]⟩

/-! ## Claim theorems -/

/-- C1: the claim states that every row-level error — including a line that
is not valid JSON — is caught at the row boundary, one rejection line is
printed, the rejected count is incremented, and the run continues.  The code
violates this: when the first line of the file fails to decode, the `except`
handler's own reference to the never-assigned local variable `row` raises
`UnboundLocalError`, which nothing catches, so the run aborts with no
rejection line printed and no count incremented.  This theorem evaluates the
embedding at that failing input. -/
theorem run_aborts_when_first_line_undecodable :
    run (Except.ok [Except.error "Expecting value: line 1 column 1 (char 0)"]) false =
      Except.error
        (PyError.unboundLocalError "local variable 'row' referenced before assignment",
         []) := rfl

/-- C3: for every record missing at least one required field, `check_schema`
fails on the first absent field in declared order with message
`Missing required field: <field>` (one field only), and presence means key
existence: any key with a value, null included, counts as present. -/
theorem check_schema_reports_first_missing_field (row : Record) (f g : String) (v : JVal)
    (h : VALID_FIELDS.find? (fun x => !(containsKey row x)) = some f)
    (hg : findKey row g = some v) :
    check_schema row VALID_FIELDS =
        Except.error (PyError.keyError ("Missing required field: " ++ f)) ∧
      containsKey row g = true := by
  refine ⟨check_schema_first_missing h, ?_⟩
  unfold containsKey
  rw [hg]
  rfl

/-- C3 witness: the scenario-3 record (no `year` key, and a present field
that is null still counts as present). -/
theorem check_schema_reports_first_missing_field_witness :
    check_schema recC3 VALID_FIELDS =
        Except.error (PyError.keyError ("Missing required field: " ++ "year")) ∧
      containsKey recC3 "registered_address" = true :=
  check_schema_reports_first_missing_field recC3 "year" "registered_address" JVal.null
    (by decide) (by decide)

/-- C4: for every record with all six required fields present and at least
one of them null, `null_check` fails on the first such field in declared
order with message `<field> cannot be Null.`; it runs only after the schema
check has passed (shown through `process_row`), and fields outside the
required list are never examined (a record agreeing on the required fields
behaves identically). -/
theorem null_check_reports_first_null_field (row row2 : Record) (f : String)
    (hp : ∀ g ∈ VALID_FIELDS, containsKey row g = true)
    (h : VALID_FIELDS.find? (fun g => decide (findKey row g = some JVal.null)) = some f)
    (hagree : ∀ g ∈ VALID_FIELDS, findKey row2 g = findKey row g) :
    null_check row VALID_FIELDS =
        Except.error (PyError.valueError (f ++ " cannot be Null.")) ∧
      process_row row = (row, Except.error (PyError.valueError (f ++ " cannot be Null."))) ∧
      null_check row2 VALID_FIELDS = null_check row VALID_FIELDS := by
  have h1 := null_check_first_null hp h
  refine ⟨h1, ?_, null_check_agree hagree⟩
  unfold process_row
  rw [check_schema_of_all hp, h1]

/-- C4 witness: the scenario-2 record (`registered_address` null), compared
with the same record extended by a null field outside the required list. -/
theorem null_check_reports_first_null_field_witness :
    null_check recC4 VALID_FIELDS =
        Except.error (PyError.valueError ("registered_address" ++ " cannot be Null.")) ∧
      process_row recC4 =
        (recC4,
         Except.error (PyError.valueError ("registered_address" ++ " cannot be Null."))) ∧
      null_check recC4b VALID_FIELDS = null_check recC4 VALID_FIELDS :=
  null_check_reports_first_null_field recC4 recC4b "registered_address"
    (by decide) (by decide) (by decide)

/-- C5: for every record whose `registered_address` string does not match
the two-line pattern, `transform_address` fails and its message is
`Unknown address format: ` followed by the raw address, stripped of outer
whitespace and with internal line breaks replaced by ", ". -/
theorem transform_address_unknown_format_message (row : Record) (s : String)
    (ha : findKey row "registered_address" = some (JVal.str s))
    (hm : addressMatch s = none) :
    transform_address row =
      (row, Except.error (PyError.valueError
        ("Unknown address format: " ++ pyReplaceNl (pyStrip s)))) := by
  simp only [transform_address, ha, hm]

/-- C5 witness: the scenario-4 record, whose one-line address yields the
message `Unknown address format: 123 Main St, Springfield, IL 62704`. -/
theorem transform_address_unknown_format_message_witness :
    transform_address recC5 =
      (recC5, Except.error (PyError.valueError
        "Unknown address format: 123 Main St, Springfield, IL 62704")) :=
  transform_address_unknown_format_message recC5
    "123 Main St, Springfield, IL 62704" (by decide) (by decide)

/-- C7: every rejected record keeps its original shape: whenever
`transform_address` fails, the row it leaves behind is exactly its input —
the four structured fields are not set and `registered_address` is not
removed on any failure path. -/
theorem transform_address_failure_leaves_row_unchanged (row : Record) (e : PyError)
    (h : (transform_address row).2 = Except.error e) :
    (transform_address row).1 = row := by
  rcases hf : findKey row "registered_address" with _ | v
  · simp [transform_address, hf]
  · cases v with
    | null => simp [transform_address, hf]
    | str s =>
        rcases hm : addressMatch s with _ | ⟨caps, rest⟩
        · simp [transform_address, hf, hm]
        · exfalso
          simp [transform_address, hf, hm] at h
    | num n => simp [transform_address, hf]
    | bool b => simp [transform_address, hf]

/-- C7 witness: a record with an unmatchable address is returned unchanged. -/
theorem transform_address_failure_leaves_row_unchanged_witness :
    (transform_address recC7).1 = recC7 :=
  transform_address_failure_leaves_row_unchanged recC7
    (PyError.valueError "Unknown address format: nope!!") rfl

/-- C9: an error at file open propagates to the caller with no summary lines
printed — but the claim also states that every run that does not fail at file
open or read ends with the two summary lines, and the code violates that: a
file whose first line fails to decode opens and reads fine, yet the run
aborts through the handler's `UnboundLocalError` and prints no summary.
This theorem evaluates the embedding at both inputs. -/
theorem run_fatal_errors_skip_summary :
    run (Except.error "No such file or directory: ./data/vehicles_complex.json") false =
        Except.error
          (PyError.osError "No such file or directory: ./data/vehicles_complex.json",
           []) ∧
      run (Except.ok [Except.error "Expecting value: line 2 column 1 (char 0)"]) false =
        Except.error
          (PyError.unboundLocalError "local variable 'row' referenced before assignment",
           []) :=
  ⟨rfl, rfl⟩

/-- C10: for every record with all six fields present and non-null whose
`registered_address` is not a string (here: a number), `transform_address`
raises `TypeError` — a kind outside the specification's four-error taxonomy —
and in `run` the generic handler still catches it: the row is printed as a
rejection and counted rejected, and the loop continues. -/
theorem transform_address_non_string_type_error (row : Record) (n : Int)
    (st : RunState) (pl : Bool)
    (hp : ∀ f ∈ VALID_FIELDS, containsKey row f = true)
    (hn : ∀ f ∈ VALID_FIELDS, findKey row f ≠ some JVal.null)
    (ha : findKey row "registered_address" = some (JVal.num n)) :
    process_row row =
        (row, Except.error (PyError.typeError "expected string or bytes-like object")) ∧
      runLine pl st (Except.ok row) =
        Except.ok
          { st with
            rowVar := some row,
            output := st.output ++
              [errorLine st.line_num
                (PyError.typeError "expected string or bytes-like object") row],
            reject_count := st.reject_count + 1,
            line_num := st.line_num + 1 } := by
  have hta : transform_address row =
      (row, Except.error (PyError.typeError "expected string or bytes-like object")) := by
    unfold transform_address
    rw [ha]
  have hpr : process_row row =
      (row, Except.error (PyError.typeError "expected string or bytes-like object")) := by
    unfold process_row
    rw [check_schema_of_all hp, null_check_of_all hp hn, hta]
  refine ⟨hpr, ?_⟩
  simp only [runLine, hpr]

/-- C10 witness: a record whose address is the JSON number 12345, fed to the
loop in its initial state. -/
theorem transform_address_non_string_type_error_witness :
    process_row recC10 =
        (recC10, Except.error (PyError.typeError "expected string or bytes-like object")) ∧
      runLine false initState (Except.ok recC10) =
        Except.ok
          { initState with
            rowVar := some recC10,
            output := initState.output ++
              [errorLine initState.line_num
                (PyError.typeError "expected string or bytes-like object") recC10],
            reject_count := initState.reject_count + 1,
            line_num := initState.line_num + 1 } :=
  transform_address_non_string_type_error recC10 12345 initState false
    (by decide) (by decide) (by decide)

/-- C2: for every record with all six required fields present and non-null
whose `registered_address` matches the two-line pattern, the row is accepted
and the resulting record has no `registered_address` key and carries
`street_address`, `city`, `state` and `zip` equal to the four captured
substrings (`zip` as a digit string, leading zeros preserved). -/
theorem process_row_accepts_valid_record (row : Record) (s a b st z : String)
    (rest : List Char)
    (hp : ∀ f ∈ VALID_FIELDS, containsKey row f = true)
    (hn : ∀ f ∈ VALID_FIELDS, findKey row f ≠ some JVal.null)
    (ha : findKey row "registered_address" = some (JVal.str s))
    (hm : addressMatch s =
      some ([("street_address", a), ("city", b), ("state", st), ("zip", z)], rest)) :
    (process_row row).2 = Except.ok true ∧
      containsKey (process_row row).1 "registered_address" = false ∧
      findKey (process_row row).1 "street_address" = some (JVal.str a) ∧
      findKey (process_row row).1 "city" = some (JVal.str b) ∧
      findKey (process_row row).1 "state" = some (JVal.str st) ∧
      findKey (process_row row).1 "zip" = some (JVal.str z) := by
  have hta : transform_address row =
      (eraseKey
        (setKey (setKey (setKey (setKey row "street_address" (JVal.str a))
          "city" (JVal.str b)) "state" (JVal.str st)) "zip" (JVal.str z))
        "registered_address", Except.ok true) := by
    simp only [transform_address, ha, hm]
    rfl
  have hpr : process_row row =
      (eraseKey
        (setKey (setKey (setKey (setKey row "street_address" (JVal.str a))
          "city" (JVal.str b)) "state" (JVal.str st)) "zip" (JVal.str z))
        "registered_address", Except.ok true) := by
    simp only [process_row, check_schema_of_all hp, null_check_of_all hp hn, hta]
  rw [hpr]
  refine ⟨rfl, ?_, ?_, ?_, ?_, ?_⟩
  · unfold containsKey
    rw [findKey_eraseKey_self]
    rfl
  · rw [@findKey_eraseKey_ne _ "registered_address" "street_address" (by decide),
        @findKey_setKey_ne _ "zip" "street_address" _ (by decide),
        @findKey_setKey_ne _ "state" "street_address" _ (by decide),
        @findKey_setKey_ne _ "city" "street_address" _ (by decide),
        findKey_setKey_self]
  · rw [@findKey_eraseKey_ne _ "registered_address" "city" (by decide),
        @findKey_setKey_ne _ "zip" "city" _ (by decide),
        @findKey_setKey_ne _ "state" "city" _ (by decide),
        findKey_setKey_self]
  · rw [@findKey_eraseKey_ne _ "registered_address" "state" (by decide),
        @findKey_setKey_ne _ "zip" "state" _ (by decide),
        findKey_setKey_self]
  · rw [@findKey_eraseKey_ne _ "registered_address" "zip" (by decide),
        findKey_setKey_self]

/-- C2 witness: concrete scenario 1 of the specification. -/
theorem process_row_accepts_valid_record_witness :
    (process_row recC2).2 = Except.ok true ∧
      containsKey (process_row recC2).1 "registered_address" = false ∧
      findKey (process_row recC2).1 "street_address" = some (JVal.str "123 Main St") ∧
      findKey (process_row recC2).1 "city" = some (JVal.str "Springfield") ∧
      findKey (process_row recC2).1 "state" = some (JVal.str "IL") ∧
      findKey (process_row recC2).1 "zip" = some (JVal.str "62704") :=
  process_row_accepts_valid_record recC2 "123 Main St\nSpringfield, IL 62704"
    "123 Main St" "Springfield" "IL" "62704" []
    (by decide) (by decide) (by decide) (by decide)

/-- C6: the address match is anchored at the start but need not consume the
whole string.  A string beginning with a full pattern match still matches
with any trailing content appended, with identical captures and the trailing
content silently ignored, so `transform_address` succeeds on it; a string in
which the pattern only occurs after one extra leading character fails, and
`transform_address` rejects it. -/
theorem address_match_anchored_ignores_trailing (s1 t : String) (c : Char)
    (caps : Caps) (row row2 : Record)
    (h1 : addressMatch s1 = some (caps, []))
    (h2 : streetChar c = false)
    (h3 : findKey row "registered_address" = some (JVal.str (s1 ++ t)))
    (h4 : findKey row2 "registered_address" =
      some (JVal.str (String.mk (c :: s1.toList)))) :
    addressMatch (s1 ++ t) = some (caps, t.toList) ∧
      (transform_address row).2 = Except.ok true ∧
      (transform_address row2).2 =
        Except.error (PyError.valueError ("Unknown address format: " ++
          pyReplaceNl (pyStrip (String.mk (c :: s1.toList))))) := by
  have hsuf : addressMatch (s1 ++ t) = some (caps, t.toList) := by
    unfold addressMatch at h1 ⊢
    rw [string_toList_append]
    exact addressMatchL_append_of_full h1 t.toList
  have hanch : addressMatch (String.mk (c :: s1.toList)) = none :=
    addressMatchL_head_not_street s1.toList h2
  refine ⟨hsuf, ?_, ?_⟩
  · simp only [transform_address, h3, hsuf]
  · simp only [transform_address, h4, hanch]

/-- C6 witness: the scenario-1 address with trailing content appended, and
the same address behind one leading character outside the street class. -/
theorem address_match_anchored_ignores_trailing_witness :
    addressMatch ("123 Main St\nSpringfield, IL 62704" ++ " Apt 4\nmore") =
        some ([("street_address", "123 Main St"), ("city", "Springfield"),
               ("state", "IL"), ("zip", "62704")], (" Apt 4\nmore" : String).toList) ∧
      (transform_address recC6a).2 = Except.ok true ∧
      (transform_address recC6b).2 =
        Except.error (PyError.valueError ("Unknown address format: " ++
          pyReplaceNl (pyStrip
            (String.mk ('#' :: "123 Main St\nSpringfield, IL 62704".toList))))) :=
  address_match_anchored_ignores_trailing "123 Main St\nSpringfield, IL 62704"
    " Apt 4\nmore" '#'
    [("street_address", "123 Main St"), ("city", "Springfield"),
     ("state", "IL"), ("zip", "62704")]
    recC6a recC6b (by decide) (by decide) rfl rfl

/-- C8: whenever the loop of `run` completes, the accepted count plus the
rejected count equals the number of lines read, each completed iteration
increments exactly one of the two counts by one, and an empty file yields
the summary for zero read, zero accepted, zero rejected rows. -/
theorem run_counts_partition_lines (pl : Bool) (ds : List LineResult)
    (st st1 st2 : RunState) (d : LineResult)
    (h : runLoop pl initState ds = Except.ok st)
    (h2 : runLine pl st1 d = Except.ok st2) :
    st.ok_count + st.reject_count = ds.length ∧
      st.line_num - 1 = ds.length ∧
      st2.ok_count + st2.reject_count = st1.ok_count + st1.reject_count + 1 ∧
      run (Except.ok ([] : List LineResult)) pl =
        Except.ok (initState, ["Read 0 rows", "OK rows: 0000, Rejected rows: 0000"]) := by
  obtain ⟨hc, hl⟩ := runLoop_counts ds initState st h
  have e1 : initState.ok_count = 0 := rfl
  have e2 : initState.reject_count = 0 := rfl
  have e3 : initState.line_num = 1 := rfl
  refine ⟨by omega, by omega, (runLine_ok_counts h2).1, rfl⟩

/-- C8 witness: a one-line file whose record is missing `make_model`,
together with one concrete rejected iteration from the initial state. -/
theorem run_counts_partition_lines_witness :
    stC8.ok_count + stC8.reject_count = dsC8.length ∧
      stC8.line_num - 1 = dsC8.length ∧
      stC8.ok_count + stC8.reject_count = initState.ok_count + initState.reject_count + 1 ∧
      run (Except.ok ([] : List LineResult)) false =
        Except.ok (initState, ["Read 0 rows", "OK rows: 0000, Rejected rows: 0000"]) :=
  run_counts_partition_lines false dsC8 stC8 initState stC8
    (Except.ok [("license_plate", JVal.null)]) rfl rfl
